import Mathlib

set_option linter.unusedVariables false

namespace Qsi

-- Shallow embedding of the distortion-group merge engine of this repository:
-- qsiprep/workflows/dwi/merge.py and qsiprep/workflows/dwi/distortion_group_merge.py.
-- Workflow constructors are embedded as pure functions from their configuration
-- arguments to the dataflow graph they declare (nodes plus connection edges);
-- a Python exception raised during graph construction is embedded as an explicit
-- error value of type PyError.

/-- One nipype interface object, as constructed in the source. Only the constructor
arguments that the source actually passes are carried. -/
inductive Interface
  | identityInterface (fields : List String)
  | niuMerge (numInputs : Nat)
  | averagePEPairs
  | mergeDWIs
  | dwiDenoise (extent : Int × Int × Int)
  deriving DecidableEq

/-- Whether a node is a plain Node or a MapNode, together with the iterfield keyword
if one was given at construction. -/
inductive NodeKind
  | node
  | mapNode (iterfield : Option String)
  deriving DecidableEq

/-- A nipype processing node: its name, its interface and its kind. -/
structure NodeSpec where
  name : String
  interface : Interface
  kind : NodeKind
  deriving DecidableEq

/-- One edge of the declared dataflow graph: source node and output port, destination
node and input port, as written in a workflow.connect call. -/
structure Connection where
  srcNode : String
  srcPort : String
  dstNode : String
  dstPort : String
  deriving DecidableEq

/-- The dataflow graph built by a workflow constructor: the workflow name, the nodes
that take part in connections, the connection edges in the order they are declared,
and direct input-value assignments such as inputnode.inputs.dwi_files. -/
structure Workflow where
  name : String
  nodes : List NodeSpec
  connections : List Connection
  inputValues : List (String × List String)
  deriving DecidableEq

/-- Python exceptions that the embedded graph-construction code can raise.
A nameError carries the undefined global name that was evaluated; an
unboundLocalError carries the local variable that was read before assignment;
a configError is the ConfigError of the specification. -/
inductive PyError
  | nameError (missing : String)
  | unboundLocalError (missing : String)
  | configError (msg : String)
  deriving DecidableEq

-- ===================================================================
-- qsiprep/workflows/dwi/merge.py
-- ===================================================================

/-- init_merge_and_denoise_wf, merge.py lines 36-135. The embedded value is the
declared graph. Line 92 builds inputnode as a MapNode over an IdentityInterface
with field dwi_files and no iterfield; line 94 assigns the dwi_files argument to
it, recorded in inputValues. Line 101 builds merge_dwis and line 102 always
connects inputnode.dwi_files to merge_dwis.original_files. If dwi_denoise_window
is positive, lines 105-108 build the denoise MapNode over DWIDenoise with
iterfield in_file and the extent keyword set to the window in each axis, and
lines 109-126 wire it before or after merge_dwis depending on
denoise_before_combining; otherwise lines 128-133 connect merge_dwis directly to
outputnode and no denoise node exists. The combine_all_dwis argument is accepted
and never read by the function body. -/
def init_merge_and_denoise_wf (dwi_files : List String) (dwi_denoise_window : Int)
    (denoise_before_combining : Bool) (combine_all_dwis : Bool) : Workflow :=
  if dwi_denoise_window > 0 then
    if denoise_before_combining then
      ⟨"merge_and_denoise_wf",
       [⟨"inputnode", Interface.identityInterface ["dwi_files"], NodeKind.mapNode none⟩,
        ⟨"outputnode", Interface.identityInterface
           ["merged_image", "merged_bval", "merged_bvec", "noise_image"], NodeKind.node⟩,
        ⟨"merge_dwis", Interface.mergeDWIs, NodeKind.node⟩,
        ⟨"denoise", Interface.dwiDenoise
           (dwi_denoise_window, dwi_denoise_window, dwi_denoise_window),
         NodeKind.mapNode (some "in_file")⟩],
       [⟨"inputnode", "dwi_files", "merge_dwis", "original_files"⟩,
        ⟨"inputnode", "dwi_files", "denoise", "in_file"⟩,
        ⟨"denoise", "out_file", "merge_dwis", "dwi_files"⟩,
        ⟨"denoise", "noise", "outputnode", "noise_image"⟩,
        ⟨"merge_dwis", "out_dwi", "outputnode", "merged_image"⟩,
        ⟨"merge_dwis", "out_bval", "outputnode", "merged_bval"⟩,
        ⟨"merge_dwis", "out_bvec", "outputnode", "merged_bvec"⟩],
       [("inputnode.dwi_files", dwi_files)]⟩
    else
      ⟨"merge_and_denoise_wf",
       [⟨"inputnode", Interface.identityInterface ["dwi_files"], NodeKind.mapNode none⟩,
        ⟨"outputnode", Interface.identityInterface
           ["merged_image", "merged_bval", "merged_bvec", "noise_image"], NodeKind.node⟩,
        ⟨"merge_dwis", Interface.mergeDWIs, NodeKind.node⟩,
        ⟨"denoise", Interface.dwiDenoise
           (dwi_denoise_window, dwi_denoise_window, dwi_denoise_window),
         NodeKind.mapNode (some "in_file")⟩],
       [⟨"inputnode", "dwi_files", "merge_dwis", "original_files"⟩,
        ⟨"inputnode", "dwi_files", "merge_dwis", "dwi_files"⟩,
        ⟨"merge_dwis", "out_dwi", "denoise", "in_file"⟩,
        ⟨"denoise", "noise", "outputnode", "noise_image"⟩,
        ⟨"denoise", "out_file", "outputnode", "merged_image"⟩,
        ⟨"merge_dwis", "out_bval", "outputnode", "merged_bval"⟩,
        ⟨"merge_dwis", "out_bvec", "outputnode", "merged_bvec"⟩],
       [("inputnode.dwi_files", dwi_files)]⟩
  else
    ⟨"merge_and_denoise_wf",
     [⟨"inputnode", Interface.identityInterface ["dwi_files"], NodeKind.mapNode none⟩,
      ⟨"outputnode", Interface.identityInterface
         ["merged_image", "merged_bval", "merged_bvec", "noise_image"], NodeKind.node⟩,
      ⟨"merge_dwis", Interface.mergeDWIs, NodeKind.node⟩],
     [⟨"inputnode", "dwi_files", "merge_dwis", "original_files"⟩,
      ⟨"inputnode", "dwi_files", "merge_dwis", "dwi_files"⟩,
      ⟨"merge_dwis", "out_dwi", "outputnode", "merged_image"⟩,
      ⟨"merge_dwis", "out_bval", "outputnode", "merged_bval"⟩,
      ⟨"merge_dwis", "out_bvec", "outputnode", "merged_bvec"⟩],
     [("inputnode.dwi_files", dwi_files)]⟩

/-- Modelled from the spec: the external upstream configuration validation that is
not part of the two source files under src (spec section 4.6 and section 7):
denoise_before_combining requires combine_all_dwis to be enabled, and the run
fails with a ConfigError otherwise. Only the check the claim needs is modelled. -/
def validate_merge_config (dwi_denoise_window : Int) (denoise_before_combining : Bool)
    (combine_all_dwis : Bool) : Except PyError Unit :=
  if denoise_before_combining && !combine_all_dwis then
    Except.error (PyError.configError "denoise_before_combining requires combine_all_dwis")
  else
    Except.ok ()

/-- Modelled from the spec: a run that first applies the external configuration
validation and only then constructs the merge-and-denoise workflow, as the spec
orders them (validation happens upstream, at graph-construction time). -/
def checked_merge_and_denoise (dwi_files : List String) (dwi_denoise_window : Int)
    (denoise_before_combining : Bool) (combine_all_dwis : Bool) : Except PyError Workflow :=
  match validate_merge_config dwi_denoise_window denoise_before_combining combine_all_dwis with
  | Except.error e => Except.error e
  | Except.ok _ =>
      Except.ok (init_merge_and_denoise_wf dwi_files dwi_denoise_window
        denoise_before_combining combine_all_dwis)

-- ===================================================================
-- qsiprep/workflows/dwi/distortion_group_merge.py
-- ===================================================================

/-- The seven per-group artifact suffixes of lines 75-76, in source order. -/
def suffixes : List String :=
  ["_image", "_bval", "_bvec", "_original_bvec", "_b0_ref", "_original_image",
   "_raw_concatenated_image"]

/-- The single-character replacement performed by replace of the dash with the
underscore at line 73. -/
def replaceDash (c : Char) : Char := if c = '-' then '_' else c

/-- Python str.replace with one-character arguments is the character-wise map. -/
def sanitize (s : String) : String := String.mk (s.data.map replaceDash)

/-- Line 73: sanitized_inputs, the group identifiers with dashes replaced. -/
def sanitized_inputs (inputs_list : List String) : List String := inputs_list.map sanitize

/-- Lines 74-77: input_names, the dynamically named fields of inputnode.
For each suffix in order, one field per sanitized group identifier. -/
def input_names (inputs_list : List String) : List String :=
  suffixes.flatMap (fun suffix => (sanitized_inputs inputs_list).map (fun n => n ++ suffix))

/-- Python str.lower on the ASCII letters, applied character-wise. -/
def pyLower (s : String) : String := String.mk (s.data.map Char.toLower)

/-- Character-wise matching of a pattern against the front of a list. -/
def strStarts : List Char → List Char → Bool
  | [], _ => true
  | _ :: _, [] => false
  | p :: ps, c :: cs => p == c && strStarts ps cs

/-- Python str.startswith with a plain string argument. -/
def pyStartsWith (s pat : String) : Bool := strStarts pat.data s.data

/-- Lines 84-91: one fan-in Merge utility node per artifact kind, each constructed
with num_inputs equal to the length of input_names. -/
def fan_in_merge_nodes (inputs_list : List String) : List NodeSpec :=
  [⟨"merge_images", Interface.niuMerge (input_names inputs_list).length, NodeKind.node⟩,
   ⟨"merge_bval", Interface.niuMerge (input_names inputs_list).length, NodeKind.node⟩,
   ⟨"merge_bvec", Interface.niuMerge (input_names inputs_list).length, NodeKind.node⟩,
   ⟨"merge_original_bvec", Interface.niuMerge (input_names inputs_list).length, NodeKind.node⟩,
   ⟨"merge_original_image", Interface.niuMerge (input_names inputs_list).length, NodeKind.node⟩,
   ⟨"merge_b0_refs", Interface.niuMerge (input_names inputs_list).length, NodeKind.node⟩,
   ⟨"merge_raw_concatenated_image", Interface.niuMerge (input_names inputs_list).length,
    NodeKind.node⟩]

/-- Destination fan-in node and artifact suffix for the seven connections made per
group at lines 96-106, in source order. -/
def fan_in_targets : List (String × String) :=
  [("merge_images", "_image"), ("merge_bval", "_bval"), ("merge_bvec", "_bvec"),
   ("merge_original_bvec", "_original_bvec"), ("merge_original_image", "_original_image"),
   ("merge_raw_concatenated_image", "_raw_concatenated_image"), ("merge_b0_refs", "_b0_ref")]

/-- The seven connections made for the group with zero-based number input_num and
sanitized identifier input_name; the destination port is in1 for the first group,
in2 for the second and so on, lines 95-106. -/
def per_group_connections (input_num : Nat) (input_name : String) : List Connection :=
  fan_in_targets.map (fun kp =>
    ⟨"inputnode", input_name ++ kp.2, kp.1, "in" ++ toString (input_num + 1)⟩)

/-- The enumerate loop of line 94, carried out from a given starting index. -/
def fan_in_aux : Nat → List String → List Connection
  | _, [] => []
  | n, g :: gs => per_group_connections n g ++ fan_in_aux (n + 1) gs

/-- All fan-in connections of lines 94-106, in declaration order. -/
def fan_in_connections (inputs_list : List String) : List Connection :=
  fan_in_aux 0 (sanitized_inputs inputs_list)

/-- The strategy dispatch of lines 108-114. A lowercased match with average selects
AveragePEPairs; otherwise a case-sensitive startswith concat selects MergeDWIs;
otherwise no branch assigns the local distortion_merger, modelled as none. -/
def distortion_merger_node (merging_strategy : String) : Option NodeSpec :=
  if pyLower merging_strategy = "average" then
    some ⟨"distortion_merger", Interface.averagePEPairs, NodeKind.node⟩
  else if pyStartsWith merging_strategy "concat" then
    some ⟨"distortion_merger", Interface.mergeDWIs, NodeKind.node⟩
  else
    none

/-- Connections added inside the strategy branches: only the average branch at
lines 110-112 connects the collected original bvec files to the merger. -/
def strategy_connections (merging_strategy : String) : List Connection :=
  if pyLower merging_strategy = "average" then
    [⟨"merge_original_bvec", "out", "distortion_merger", "original_bvec_files"⟩]
  else
    []

/-- The unconditional merger connections of lines 116-123. -/
def merger_common_connections : List Connection :=
  [⟨"merge_images", "out", "distortion_merger", "dwi_files"⟩,
   ⟨"merge_bval", "out", "distortion_merger", "bval_files"⟩,
   ⟨"merge_bvec", "out", "distortion_merger", "bvec_files"⟩,
   ⟨"merge_original_image", "out", "distortion_merger", "bids_dwi_files"⟩,
   ⟨"merge_raw_concatenated_image", "out", "distortion_merger", "raw_concatenated_files"⟩,
   ⟨"merge_b0_refs", "out", "distortion_merger", "b0_refs"⟩]

/-- init_distortion_group_merge_wf, distortion_group_merge.py lines 25-192.
Lines 73-106 build inputnode with fields input_names, the fan-in nodes of
fan_in_merge_nodes and the connections of fan_in_connections; these constructions
always succeed. Lines 108-114 dispatch on merging_strategy as in
distortion_merger_node. If no branch is selected, the local distortion_merger is
left unassigned and evaluating it in the connection list at line 117 raises
UnboundLocalError. If a branch is selected, lines 116-123 add
strategy_connections and merger_common_connections; the later connection list
literal at lines 152-185 then evaluates the name transform_dwis_t1, which is
defined nowhere in the module and not brought in by any module-level binding, so
the list construction raises NameError before workflow.connect is called and the
function never returns. The external sub-workflow builders and plain node
constructions of lines 126-150 are collaborators outside this core and construct
without error; the arguments of the source that are only handed to them, and the
harmonize_b0_intensities and b0_threshold arguments, are never read by any code
path of the function body, so only the four arguments below are carried. -/
def init_distortion_group_merge_wf (merging_strategy : String) (inputs_list : List String)
    (harmonize_b0_intensities : Bool) (b0_threshold : Int) : Except PyError Workflow :=
  match distortion_merger_node merging_strategy with
  | none => Except.error (PyError.unboundLocalError "distortion_merger")
  | some _ => Except.error (PyError.nameError "transform_dwis_t1")

/-- True exactly when a graph-construction result is a ConfigError. -/
def isConfigErr : Except PyError Workflow → Bool
  | Except.error (PyError.configError _) => true
  | _ => false

-- ===================================================================
-- Helper lemmas
-- ===================================================================

lemma mem_input_names_iff (l : List String) (x : String) :
    x ∈ input_names l ↔ ∃ suf ∈ suffixes, ∃ g ∈ sanitized_inputs l, g ++ suf = x := by
  simp [input_names, List.mem_flatMap, List.mem_map]

lemma last_two_of_append (a s : String) (h : 2 ≤ s.data.length) :
    (a ++ s).data.reverse.take 2 = s.data.reverse.take 2 := by
  rw [String.data_append, List.reverse_append,
    List.take_append_of_le_length (by simpa using h)]

lemma append_ne_of_last_two (a s t : String) (hs : 2 ≤ s.data.length)
    (hne : s.data.reverse.take 2 ≠ t.data.reverse.take 2) : a ++ s ≠ t := by
  intro he
  apply hne
  rw [← last_two_of_append a s hs, he]

lemma string_append_left_cancel {g a b : String} (h : g ++ a = g ++ b) : a = b := by
  apply String.ext
  have hd := congrArg String.data h
  rw [String.data_append, String.data_append] at hd
  exact List.append_cancel_left hd

lemma confounds_not_mem (l : List String) : "confounds" ∉ input_names l := by
  intro hmem
  obtain ⟨suf, hsuf, g, hg, he⟩ := (mem_input_names_iff l "confounds").mp hmem
  simp only [suffixes, List.mem_cons, List.not_mem_nil, or_false] at hsuf
  rcases hsuf with h | h | h | h | h | h | h <;> subst h <;>
    exact append_ne_of_last_two _ _ _ (by decide) (by decide) he

lemma raw_qc_file_not_mem (l : List String) : "raw_qc_file" ∉ input_names l := by
  intro hmem
  obtain ⟨suf, hsuf, g, hg, he⟩ := (mem_input_names_iff l "raw_qc_file").mp hmem
  simp only [suffixes, List.mem_cons, List.not_mem_nil, or_false] at hsuf
  rcases hsuf with h | h | h | h | h | h | h <;> subst h <;>
    exact append_ne_of_last_two _ _ _ (by decide) (by decide) he

lemma pyLower_ne_average_of_concat {s : String} (h : pyStartsWith s "concat" = true) :
    pyLower s ≠ "average" := by
  intro he
  have hd : s.data.map Char.toLower = ("average" : String).data := congrArg String.data he
  unfold pyStartsWith at h
  have hc : ("concat" : String).data = ['c', 'o', 'n', 'c', 'a', 't'] := rfl
  rw [hc] at h
  cases hsd : s.data with
  | nil =>
    rw [hsd] at h
    simp [strStarts] at h
  | cons c0 rest =>
    rw [hsd] at h
    simp only [strStarts, Bool.and_eq_true, beq_iff_eq] at h
    have hc0 : c0 = 'c' := h.1.symm
    rw [hsd, hc0] at hd
    have ha : ("average" : String).data = ['a', 'v', 'e', 'r', 'a', 'g', 'e'] := rfl
    rw [ha, List.map_cons] at hd
    exact absurd (List.head_eq_of_cons_eq hd) (by decide)

-- ===================================================================
-- C1
-- ===================================================================

/-- C1: whenever a merging strategy branch is selected (the lowercased strategy
equals average, or the strategy starts with concat), init_distortion_group_merge_wf
raises an unhandled NameError on the undefined name transform_dwis_t1 and never
returns a workflow; moreover the fields raw_qc_file and confounds referenced by the
failing connection block are not among the fields created for inputnode. -/
theorem C1_selected_branch_raises_name_error (merging_strategy : String)
    (inputs_list : List String) (harmonize_b0_intensities : Bool) (b0_threshold : Int)
    (h : pyLower merging_strategy = "average" ∨ pyStartsWith merging_strategy "concat" = true) :
    init_distortion_group_merge_wf merging_strategy inputs_list harmonize_b0_intensities
        b0_threshold
      = Except.error (PyError.nameError "transform_dwis_t1") ∧
    "raw_qc_file" ∉ input_names inputs_list ∧ "confounds" ∉ input_names inputs_list := by
  refine ⟨?_, raw_qc_file_not_mem inputs_list, confounds_not_mem inputs_list⟩
  obtain ⟨m, hm⟩ : ∃ m, distortion_merger_node merging_strategy = some m := by
    rcases h with h1 | h2
    · exact ⟨_, by unfold distortion_merger_node; rw [if_pos h1]⟩
    · by_cases h1 : pyLower merging_strategy = "average"
      · exact ⟨_, by unfold distortion_merger_node; rw [if_pos h1]⟩
      · exact ⟨_, by unfold distortion_merger_node; rw [if_neg h1, if_pos h2]⟩
  unfold init_distortion_group_merge_wf
  rw [hm]

/-- C1 witness: the theorem applied at the concrete input average with one group. -/
theorem C1_selected_branch_raises_name_error_witness :
    init_distortion_group_merge_wf "average" ["pe-1"] true 100
      = Except.error (PyError.nameError "transform_dwis_t1") :=
  (C1_selected_branch_raises_name_error "average" ["pe-1"] true 100 (Or.inl (by decide))).1

-- ===================================================================
-- C2
-- ===================================================================

/-- C2 counterexample: at the unrecognized strategy mean, the call fails with an
UnboundLocalError on distortion_merger, not with a ConfigError, so the claim that
an unrecognized strategy fails with a ConfigError is false as stated. -/
theorem C2_counterexample :
    init_distortion_group_merge_wf "mean" ["pe-1"] true 100
      = Except.error (PyError.unboundLocalError "distortion_merger") ∧
    isConfigErr (init_distortion_group_merge_wf "mean" ["pe-1"] true 100) = false :=
  ⟨rfl, rfl⟩

/-- C2 amended: for every merging_strategy that is neither case-insensitively equal
to average nor beginning (case-sensitively) with concat, the call fails at
graph-construction time with an unhandled UnboundLocalError on the unassigned
local distortion_merger, rather than with a ConfigError. -/
theorem C2_amended_unrecognized_unbound_local (merging_strategy : String)
    (inputs_list : List String) (harmonize_b0_intensities : Bool) (b0_threshold : Int)
    (h1 : pyLower merging_strategy ≠ "average")
    (h2 : pyStartsWith merging_strategy "concat" = false) :
    init_distortion_group_merge_wf merging_strategy inputs_list harmonize_b0_intensities
        b0_threshold
      = Except.error (PyError.unboundLocalError "distortion_merger") := by
  have hn : distortion_merger_node merging_strategy = none := by
    unfold distortion_merger_node
    rw [if_neg h1, if_neg]
    simp [h2]
  unfold init_distortion_group_merge_wf
  rw [hn]

/-- C2 amended witness: the amended theorem applied at the concrete strategy mean. -/
theorem C2_amended_unrecognized_unbound_local_witness :
    init_distortion_group_merge_wf "mean" ["pe-2"] false 0
      = Except.error (PyError.unboundLocalError "distortion_merger") :=
  C2_amended_unrecognized_unbound_local "mean" ["pe-2"] false 0 (by decide) (by decide)

-- ===================================================================
-- C4
-- ===================================================================

/-- C4: the harmonize_b0_intensities and b0_threshold arguments are never read by
the function body, so two calls differing only in these arguments behave
identically; in particular the constructed merge step does not depend on them. -/
theorem C4_flags_do_not_affect_result (merging_strategy : String)
    (inputs_list : List String) (h1 h2 : Bool) (b1 b2 : Int) :
    init_distortion_group_merge_wf merging_strategy inputs_list h1 b1
      = init_distortion_group_merge_wf merging_strategy inputs_list h2 b2 := rfl

/-- C4 witness: the theorem applied at the concrete failing input, two calls that
differ only in harmonize_b0_intensities and b0_threshold. -/
theorem C4_flags_do_not_affect_result_witness :
    init_distortion_group_merge_wf "average" ["pe-1"] true 100
      = init_distortion_group_merge_wf "average" ["pe-1"] false 0 :=
  C4_flags_do_not_affect_result "average" ["pe-1"] true false 100 0

-- ===================================================================
-- C5
-- ===================================================================

/-- C5 counterexample: the strategy Concat begins with concat up to letter casing,
yet no branch is selected for it, so no Concatenator merge node is constructed and
the call fails with an UnboundLocalError; hence concat dispatch is not
case-insensitive as claimed. -/
theorem C5_counterexample :
    pyStartsWith (pyLower "Concat") "concat" = true ∧
    distortion_merger_node "Concat" = none ∧
    init_distortion_group_merge_wf "Concat" ["pe-1"] true 100
      = Except.error (PyError.unboundLocalError "distortion_merger") :=
  ⟨by decide, by decide, rfl⟩

/-- C5 amended: dispatch on average is case-insensitive and selects AveragePEPairs
together with the connection of the ordered original bvec files; dispatch on
concat is case-sensitive: exactly the strategies beginning with lowercase concat
select MergeDWIs, and no original bvec connection is made for them. -/
theorem C5_amended_dispatch :
    (∀ s : String, pyLower s = "average" →
      distortion_merger_node s
        = some ⟨"distortion_merger", Interface.averagePEPairs, NodeKind.node⟩ ∧
      strategy_connections s
        = [⟨"merge_original_bvec", "out", "distortion_merger", "original_bvec_files"⟩]) ∧
    (∀ s : String, pyStartsWith s "concat" = true →
      distortion_merger_node s
        = some ⟨"distortion_merger", Interface.mergeDWIs, NodeKind.node⟩ ∧
      strategy_connections s = []) := by
  constructor
  · intro s h1
    constructor
    · unfold distortion_merger_node; rw [if_pos h1]
    · unfold strategy_connections; rw [if_pos h1]
  · intro s h2
    have h1 := pyLower_ne_average_of_concat h2
    constructor
    · unfold distortion_merger_node; rw [if_neg h1, if_pos h2]
    · unfold strategy_connections; rw [if_neg h1]

/-- C5 amended witness: the amended theorem applied at a mixed-case average value
and at a lowercase concatenation value. -/
theorem C5_amended_dispatch_witness :
    distortion_merger_node "AvErAgE"
      = some ⟨"distortion_merger", Interface.averagePEPairs, NodeKind.node⟩ ∧
    distortion_merger_node "concatenate"
      = some ⟨"distortion_merger", Interface.mergeDWIs, NodeKind.node⟩ ∧
    strategy_connections "concatenate" = [] :=
  ⟨(C5_amended_dispatch.1 "AvErAgE" (by decide)).1,
   (C5_amended_dispatch.2 "concatenate" (by decide)).1,
   (C5_amended_dispatch.2 "concatenate" (by decide)).2⟩

-- ===================================================================
-- C3
-- ===================================================================

/-- C3: under denoise_before_combining true and combine_all_dwis false, the run
fails with a ConfigError at the external configuration validation before any
merge workflow is constructed, for every file list and every denoise window; in
particular no workflow with denoising wired before the merge is produced. -/
theorem C3_denoise_requires_combine (dwi_files : List String) (dwi_denoise_window : Int) :
    checked_merge_and_denoise dwi_files dwi_denoise_window true false
      = Except.error
          (PyError.configError "denoise_before_combining requires combine_all_dwis") := rfl

/-- C3 witness: the theorem applied at the concrete scenario of the claim, a
denoise window of seven. -/
theorem C3_denoise_requires_combine_witness :
    checked_merge_and_denoise ["sub-01_dwi.nii.gz"] 7 true false
      = Except.error
          (PyError.configError "denoise_before_combining requires combine_all_dwis") :=
  C3_denoise_requires_combine ["sub-01_dwi.nii.gz"] 7

-- ===================================================================
-- C6
-- ===================================================================

/-- C6: with a positive denoise window, if denoise_before_combining is true the
denoise MapNode with iterfield in_file takes the input files and feeds its
outputs into the merge node, producing one noise image per input, and the merged
outputs come from the merge node; if it is false the input files go directly
into the merge node, the denoise node is applied to the single merged image and
its denoised output becomes merged_image. -/
theorem C6_denoise_wiring (dwi_files : List String) (dwi_denoise_window : Int)
    (combine_all_dwis : Bool) (h : 0 < dwi_denoise_window) :
    ((init_merge_and_denoise_wf dwi_files dwi_denoise_window true combine_all_dwis).connections
      = [⟨"inputnode", "dwi_files", "merge_dwis", "original_files"⟩,
         ⟨"inputnode", "dwi_files", "denoise", "in_file"⟩,
         ⟨"denoise", "out_file", "merge_dwis", "dwi_files"⟩,
         ⟨"denoise", "noise", "outputnode", "noise_image"⟩,
         ⟨"merge_dwis", "out_dwi", "outputnode", "merged_image"⟩,
         ⟨"merge_dwis", "out_bval", "outputnode", "merged_bval"⟩,
         ⟨"merge_dwis", "out_bvec", "outputnode", "merged_bvec"⟩]) ∧
    ((⟨"denoise", Interface.dwiDenoise
         (dwi_denoise_window, dwi_denoise_window, dwi_denoise_window),
       NodeKind.mapNode (some "in_file")⟩ : NodeSpec)
      ∈ (init_merge_and_denoise_wf dwi_files dwi_denoise_window true combine_all_dwis).nodes) ∧
    ((init_merge_and_denoise_wf dwi_files dwi_denoise_window false combine_all_dwis).connections
      = [⟨"inputnode", "dwi_files", "merge_dwis", "original_files"⟩,
         ⟨"inputnode", "dwi_files", "merge_dwis", "dwi_files"⟩,
         ⟨"merge_dwis", "out_dwi", "denoise", "in_file"⟩,
         ⟨"denoise", "noise", "outputnode", "noise_image"⟩,
         ⟨"denoise", "out_file", "outputnode", "merged_image"⟩,
         ⟨"merge_dwis", "out_bval", "outputnode", "merged_bval"⟩,
         ⟨"merge_dwis", "out_bvec", "outputnode", "merged_bvec"⟩]) ∧
    ((⟨"denoise", Interface.dwiDenoise
         (dwi_denoise_window, dwi_denoise_window, dwi_denoise_window),
       NodeKind.mapNode (some "in_file")⟩ : NodeSpec)
      ∈ (init_merge_and_denoise_wf dwi_files dwi_denoise_window false combine_all_dwis).nodes)
    := by
  refine ⟨?_, ?_, ?_, ?_⟩ <;> simp [init_merge_and_denoise_wf, h]

/-- C6 witness: the theorem applied at a window of seven with denoising before the
merge; the denoise MapNode is present in the constructed workflow. -/
theorem C6_denoise_wiring_witness :
    (⟨"denoise", Interface.dwiDenoise (7, 7, 7), NodeKind.mapNode (some "in_file")⟩ : NodeSpec)
      ∈ (init_merge_and_denoise_wf ["sub-01_dwi.nii.gz"] 7 true true).nodes :=
  (C6_denoise_wiring ["sub-01_dwi.nii.gz"] 7 true (by decide)).2.1

-- ===================================================================
-- C7
-- ===================================================================

/-- C7: with a denoise window of zero the denoise stage is skipped entirely: the
workflow contains no denoise node, the input files are connected directly to the
MergeDWIs node, and the merged image, bval and bvec outputs come directly from
the MergeDWIs outputs. -/
theorem C7_window_zero_skips_denoise (dwi_files : List String)
    (denoise_before_combining combine_all_dwis : Bool) :
    ((init_merge_and_denoise_wf dwi_files 0 denoise_before_combining combine_all_dwis).nodes
      = [⟨"inputnode", Interface.identityInterface ["dwi_files"], NodeKind.mapNode none⟩,
         ⟨"outputnode", Interface.identityInterface
            ["merged_image", "merged_bval", "merged_bvec", "noise_image"], NodeKind.node⟩,
         ⟨"merge_dwis", Interface.mergeDWIs, NodeKind.node⟩]) ∧
    ((init_merge_and_denoise_wf dwi_files 0 denoise_before_combining
        combine_all_dwis).connections
      = [⟨"inputnode", "dwi_files", "merge_dwis", "original_files"⟩,
         ⟨"inputnode", "dwi_files", "merge_dwis", "dwi_files"⟩,
         ⟨"merge_dwis", "out_dwi", "outputnode", "merged_image"⟩,
         ⟨"merge_dwis", "out_bval", "outputnode", "merged_bval"⟩,
         ⟨"merge_dwis", "out_bvec", "outputnode", "merged_bvec"⟩]) ∧
    (∀ n ∈ (init_merge_and_denoise_wf dwi_files 0 denoise_before_combining
        combine_all_dwis).nodes, NodeSpec.name n ≠ "denoise") := by
  refine ⟨rfl, rfl, ?_⟩
  intro n hn
  have hn2 : n ∈
      [(⟨"inputnode", Interface.identityInterface ["dwi_files"],
          NodeKind.mapNode none⟩ : NodeSpec),
       ⟨"outputnode", Interface.identityInterface
          ["merged_image", "merged_bval", "merged_bvec", "noise_image"], NodeKind.node⟩,
       ⟨"merge_dwis", Interface.mergeDWIs, NodeKind.node⟩] := hn
  simp only [List.mem_cons, List.not_mem_nil, or_false] at hn2
  rcases hn2 with h | h | h <;> subst h <;> decide

/-- C7 witness: the theorem applied at a concrete file list; the connections are
exactly the direct wiring through MergeDWIs. -/
theorem C7_window_zero_skips_denoise_witness :
    (init_merge_and_denoise_wf ["sub-01_dwi.nii.gz"] 0 true true).connections
      = [⟨"inputnode", "dwi_files", "merge_dwis", "original_files"⟩,
         ⟨"inputnode", "dwi_files", "merge_dwis", "dwi_files"⟩,
         ⟨"merge_dwis", "out_dwi", "outputnode", "merged_image"⟩,
         ⟨"merge_dwis", "out_bval", "outputnode", "merged_bval"⟩,
         ⟨"merge_dwis", "out_bvec", "outputnode", "merged_bvec"⟩] :=
  (C7_window_zero_skips_denoise ["sub-01_dwi.nii.gz"] true true).2.1

-- ===================================================================
-- C8
-- ===================================================================

/-- C8: the fields of inputnode are exactly the seven named slots per sanitized
group identifier, every group exposes all seven, the seven slot names of one
group are pairwise distinct, and no slot of any other kind exists; in particular
the suffix list contains no confounds suffix. -/
theorem C8_seven_slots_per_group (l : List String) :
    (∀ g ∈ sanitized_inputs l, ∀ suf ∈ suffixes, g ++ suf ∈ input_names l) ∧
    (∀ x ∈ input_names l, ∃ suf ∈ suffixes, ∃ g ∈ sanitized_inputs l, g ++ suf = x) ∧
    suffixes.length = 7 ∧ "_confounds" ∉ suffixes ∧
    (∀ g : String, (suffixes.map (fun suf => g ++ suf)).Nodup) := by
  refine ⟨?_, ?_, by decide, by decide, ?_⟩
  · intro g hg suf hsuf
    exact (mem_input_names_iff l (g ++ suf)).mpr ⟨suf, hsuf, g, hg, rfl⟩
  · intro x hx
    exact (mem_input_names_iff l x).mp hx
  · intro g
    have hnd : suffixes.Nodup := by decide
    exact hnd.map (fun a b hab => string_append_left_cancel hab)

/-- C8 witness: the theorem applied at one group named pe-1; its sanitized image
slot is among the inputnode fields. -/
theorem C8_seven_slots_per_group_witness :
    ("pe_1" : String) ++ "_image" ∈ input_names ["pe-1"] :=
  (C8_seven_slots_per_group ["pe-1"]).1 "pe_1" (by decide) "_image" (by decide)

-- ===================================================================
-- C9
-- ===================================================================

lemma mem_fan_in_aux_of_get (gs : List String) :
    ∀ (n i : Nat) (g : String), gs.get? i = some g → ∀ kp ∈ fan_in_targets,
      (⟨"inputnode", g ++ kp.2, kp.1, "in" ++ toString (n + i + 1)⟩ : Connection)
        ∈ fan_in_aux n gs := by
  induction gs with
  | nil =>
    intro n i g h
    simp [List.get?] at h
  | cons g0 rest ih =>
    intro n i g h kp hkp
    cases i with
    | zero =>
      have hg : g0 = g := by simpa using h
      subst hg
      unfold fan_in_aux
      apply List.mem_append_left
      have e0 : n + 0 + 1 = n + 1 := by omega
      rw [e0]
      exact List.mem_map.mpr ⟨kp, hkp, rfl⟩
    | succ j =>
      unfold fan_in_aux
      apply List.mem_append_right
      have e : n + (j + 1) + 1 = n + 1 + j + 1 := by omega
      rw [e]
      exact ih (n + 1) j g (by simpa using h) kp hkp

lemma mem_fan_in_aux_elim (gs : List String) :
    ∀ (n : Nat) (c : Connection), c ∈ fan_in_aux n gs →
      ∃ i g, gs.get? i = some g ∧ ∃ kp ∈ fan_in_targets,
        c = ⟨"inputnode", g ++ kp.2, kp.1, "in" ++ toString (n + i + 1)⟩ := by
  induction gs with
  | nil =>
    intro n c h
    simp [fan_in_aux] at h
  | cons g0 rest ih =>
    intro n c h
    unfold fan_in_aux at h
    rcases List.mem_append.mp h with h1 | h2
    · obtain ⟨kp, hkp, hc⟩ := List.mem_map.mp h1
      refine ⟨0, g0, by simp, kp, hkp, ?_⟩
      rw [← hc]
    · obtain ⟨i, g, hg, kp, hkp, hc⟩ := ih (n + 1) c h2
      refine ⟨i + 1, g, by simpa using hg, kp, hkp, ?_⟩
      have e : n + (i + 1) + 1 = n + 1 + i + 1 := by omega
      rw [hc, e]

/-- C9: for every zero-based position i in the sanitized group list, port in(i+1)
of each of the seven fan-in merge nodes receives exactly the artifact of group i
of the corresponding kind, and every fan-in connection has this form, so the
sequence handed to the merge strategy lists the groups in inputs_list order for
all seven artifact kinds alike. -/
theorem C9_fan_in_stable_group_order (l : List String) :
    (∀ (i : Nat) (g : String), (sanitized_inputs l).get? i = some g →
      ∀ kp ∈ fan_in_targets,
        (⟨"inputnode", g ++ kp.2, kp.1, "in" ++ toString (i + 1)⟩ : Connection)
          ∈ fan_in_connections l) ∧
    (∀ c ∈ fan_in_connections l, ∃ i g, (sanitized_inputs l).get? i = some g ∧
      ∃ kp ∈ fan_in_targets,
        c = ⟨"inputnode", g ++ kp.2, kp.1, "in" ++ toString (i + 1)⟩) := by
  constructor
  · intro i g h kp hkp
    have := mem_fan_in_aux_of_get (sanitized_inputs l) 0 i g h kp hkp
    simpa [fan_in_connections] using this
  · intro c hc
    have := mem_fan_in_aux_elim (sanitized_inputs l) 0 c
      (by simpa [fan_in_connections] using hc)
    simpa using this

/-- C9 witness: the theorem applied at two groups; the bval artifact of the second
group reaches port in2 of the merge_bval fan-in node. -/
theorem C9_fan_in_stable_group_order_witness :
    (⟨"inputnode", ("pe_2" : String) ++ "_bval", "merge_bval",
      "in" ++ toString (1 + 1)⟩ : Connection) ∈ fan_in_connections ["pe-1", "pe-2"] :=
  (C9_fan_in_stable_group_order ["pe-1", "pe-2"]).1 1 "pe_2" (by decide)
    ("merge_bval", "_bval") (by decide)

-- ===================================================================
-- C10
-- ===================================================================

lemma replaceDash_inj {a b : Char} (ha : a ≠ '_') (hb : b ≠ '_')
    (h : replaceDash a = replaceDash b) : a = b := by
  unfold replaceDash at h
  by_cases h1 : a = '-'
  · by_cases h2 : b = '-'
    · rw [h1, h2]
    · rw [if_pos h1, if_neg h2] at h
      exact absurd h.symm hb
  · by_cases h2 : b = '-'
    · rw [if_neg h1, if_pos h2] at h
      exact absurd h ha
    · rw [if_neg h1, if_neg h2] at h
      exact h

lemma map_replaceDash_inj (l1 : List Char) : ∀ l2 : List Char,
    (∀ c ∈ l1, c ≠ '_') → (∀ c ∈ l2, c ≠ '_') →
    l1.map replaceDash = l2.map replaceDash → l1 = l2 := by
  induction l1 with
  | nil =>
    intro l2 _ _ h
    cases l2 with
    | nil => rfl
    | cons b t => simp at h
  | cons a t ih =>
    intro l2 ha hb h
    cases l2 with
    | nil => simp at h
    | cons b t2 =>
      rw [List.map_cons, List.map_cons] at h
      injection h with h1 h2
      have e1 : a = b :=
        replaceDash_inj (ha a (List.mem_cons_self a t)) (hb b (List.mem_cons_self b t2)) h1
      have e2 : t = t2 :=
        ih t2 (fun c hc => ha c (List.mem_cons_of_mem a hc))
          (fun c hc => hb c (List.mem_cons_of_mem b hc)) h2
      rw [e1, e2]

/-- C10 counterexample: the distinct identifiers run-1 and run_1 sanitize to the
same name, so their seven slot names coincide and the claim that sanitization is
injective, in particular on identifiers differing only in dash versus underscore,
is false. -/
theorem C10_counterexample :
    sanitize "run-1" = sanitize "run_1" ∧ (("run-1" : String) == "run_1") = false ∧
    sanitized_inputs ["run-1", "run_1"] = ["run_1", "run_1"] :=
  ⟨rfl, by decide, rfl⟩

/-- C10 amended: sanitization is not injective in general, since identifiers
differing only in dash versus underscore collide; it is injective on identifiers
that contain no underscore, so per-group slots never collide for such lists. -/
theorem C10_sanitize_injective_on_dash_free (s t : String)
    (hs : ∀ c ∈ s.data, c ≠ '_') (ht : ∀ c ∈ t.data, c ≠ '_') (hne : s ≠ t) :
    sanitize s ≠ sanitize t := by
  intro he
  apply hne
  apply String.ext
  apply map_replaceDash_inj s.data t.data hs ht
  exact congrArg String.data he

/-- C10 amended witness: the amended theorem applied at the distinct dash-free
identifiers pe-1 and pe-2, whose sanitized forms stay distinct. -/
theorem C10_sanitize_injective_on_dash_free_witness :
    (sanitize "pe-1" == sanitize "pe-2") = false :=
  beq_eq_false_iff_ne.mpr
    (C10_sanitize_injective_on_dash_free "pe-1" "pe-2" (by decide) (by decide) (by decide))

end Qsi
